import Mathlib

/-!
Shallow embedding of the TJH-Support admin chat front end:
the `AdminChatContext` provider (loadMessages, sendMessage, createConversation,
deleteConversation) and the `ChatPanel` component (file selection validation,
typing-animation effect).  Backend HTTP calls are modelled by explicit
`FetchResult` oracles passed to each operation; React state is an explicit
`ChatState` record threaded through the operations.
-/

namespace TJH

/-- Author of a chat message, as in the `Message` type of AdminChatContext. -/
inductive Author where
  | admin
  | agent
deriving DecidableEq, Repr

/-- `Conversation` record from AdminChatContext. -/
structure Conversation where
  id : Int
  customer_id : Int
  title : String
  external_thread_id : String
  created_at : String
deriving DecidableEq, Repr

/-- `Message` record from AdminChatContext. -/
structure Message where
  id : Int
  conversation_id : Int
  author : Author
  text : String
  created_at : String
deriving DecidableEq, Repr

/-- Outcome of one `fetch` call: 2xx with a parsed body, a non-2xx status,
or a thrown network error (the `catch` path). -/
inductive FetchResult (α : Type) where
  | ok (data : α)
  | httpError (status : Nat)
  | networkError
deriving DecidableEq, Repr

/-- `res.ok` of the fetch response. -/
def FetchResult.isOk {α : Type} : FetchResult α → Bool
  | .ok _ => true
  | .httpError _ => false
  | .networkError => false

/-- The React state held by `AdminChatProvider`. -/
structure ChatState where
  showChatPanel : Bool
  customerId : Option Int
  conversations : List Conversation
  selectedConversationId : Option Int
  messages : List Message
  isSending : Bool
  isLoadingMessages : Bool
deriving DecidableEq, Repr

/-- The retry loop body of `loadMessages` (AdminChatContext lines 136-188).
`results i` is the outcome of the fetch on attempt `i`.  Returns
(the argument of the final `setMessages` call, if the loop reached one;
the list of backoff delays awaited, each `delay * 2 ^ attempt`;
the number of fetch attempts performed). -/
def loadMessagesLoop (results : Nat → FetchResult (List Message)) (delay : Nat)
    (retries : Nat) (attempt : Nat) :
    Option (List Message) × List Nat × Nat :=
  if h : attempt < retries then
    match results attempt with
    | .ok data => (some data, [], 1)
    | .httpError _ =>
      if attempt < retries - 1 then
        let r := loadMessagesLoop results delay retries (attempt + 1)
        (r.1, delay * 2 ^ attempt :: r.2.1, r.2.2 + 1)
      else (some [], [], 1)
    | .networkError =>
      if attempt < retries - 1 then
        let r := loadMessagesLoop results delay retries (attempt + 1)
        (r.1, delay * 2 ^ attempt :: r.2.1, r.2.2 + 1)
      else (some [], [], 1)
  else (none, [], 0)
termination_by retries - attempt
decreasing_by all_goals omega

/-- `loadMessages(conversationId, retries, delay)` of AdminChatContext:
runs the retry loop and applies the final `setMessages`, if any, to the state.
Returns the new state and the list of backoff delays awaited.  The function is
total: every failure path is caught inside the loop, nothing is rethrown. -/
def loadMessages (st : ChatState) (results : Nat → FetchResult (List Message))
    (retries : Nat) (delay : Nat) : ChatState × List Nat :=
  let r := loadMessagesLoop results delay retries 0
  let st1 := { st with isLoadingMessages := if retries = 0 then true else false }
  (match r.1 with
   | some data => { st1 with messages := data }
   | none => st1, r.2.1)

/-- Model of the JavaScript `String.prototype.trim()` used by the source:
strips leading and trailing whitespace.  Defined structurally over the
character list so that it evaluates on concrete inputs. -/
def jsTrim (s : String) : String :=
  ⟨((s.data.dropWhile Char.isWhitespace).reverse.dropWhile
      Char.isWhitespace).reverse⟩

/-- Metadata of a DOM `File` object, as read by ChatPanel. -/
structure FileMeta where
  name : String
  type : String
  size : Nat
deriving DecidableEq, Repr

/-- Body of the 2xx response of `POST /chat/conversations/{id}/messages`:
the optional `messages` array (`data.messages`). -/
structure SendResponse where
  messages : Option (List Message)
deriving DecidableEq, Repr

/-- `sendMessage(conversationId, text, files)` of AdminChatContext
(lines 192-317).  `response` is the outcome of the POST; `loadResults` is the
oracle for the fallback `loadMessages` call when the backend returns no
`messages` array.  Returns the new state and whether a backend request was
issued at all. -/
def sendMessage (st : ChatState) (conversationId : Int) (text : String)
    (files : List FileMeta) (response : FetchResult SendResponse)
    (loadResults : Nat → FetchResult (List Message)) (nowIso : String) :
    ChatState × Bool :=
  if jsTrim text == "" && files.isEmpty then (st, false)
  else
    let displayText := if jsTrim text == "" then "[Files attached]" else jsTrim text
    let tempAdminMessage : Message :=
      { id := -1, conversation_id := conversationId, author := .admin,
        text := displayText, created_at := nowIso }
    let st1 := { st with messages := st.messages ++ [tempAdminMessage],
                         isSending := true }
    match response with
    | .ok data =>
      match data.messages with
      | some msgs =>
        if msgs.isEmpty then
          let st2 := (loadMessages st1 loadResults 3 300).1
          ({ st2 with isSending := false }, true)
        else
          ({ st1 with
              messages :=
                st1.messages.filter
                  (fun m => !(m.id == -1 && m.text == jsTrim text)) ++ msgs,
              isSending := false }, true)
      | none =>
        let st2 := (loadMessages st1 loadResults 3 300).1
        ({ st2 with isSending := false }, true)
    | .httpError _ =>
      ({ st1 with
          messages := st1.messages.filter
            (fun m => m.id != -1 || m.text != jsTrim text),
          isSending := false }, true)
    | .networkError =>
      ({ st1 with
          messages := st1.messages.filter
            (fun m => !(m.id == -1 && m.text == jsTrim text)),
          isSending := false }, true)

/-- Result of `createConversation`: the new state, the returned value
(the new conversation, or null), and the `title` field sent in the POST body
(none when no request was made because no customer is active). -/
structure CreateOutcome where
  state : ChatState
  result : Option Conversation
  requestedTitle : Option String
deriving Repr

/-- `createConversation(title?)` of AdminChatContext (lines 319-357). -/
def createConversation (st : ChatState) (title : Option String)
    (response : FetchResult Conversation)
    (loadResults : Nat → FetchResult (List Message)) : CreateOutcome :=
  match st.customerId with
  | none => { state := st, result := none, requestedTitle := none }
  | some _ =>
    let trimmedTitle :=
      match title with
      | some t =>
        if jsTrim t == "" then
          "Conversation " ++ toString (st.conversations.length + 1)
        else jsTrim t
      | none => "Conversation " ++ toString (st.conversations.length + 1)
    match response with
    | .ok newConversation =>
      let st1 := { st with
        conversations := newConversation :: st.conversations,
        selectedConversationId := some newConversation.id,
        showChatPanel := true }
      let st2 := (loadMessages st1 loadResults 3 300).1
      { state := st2, result := some newConversation,
        requestedTitle := some trimmedTitle }
    | .httpError _ =>
      { state := st, result := none, requestedTitle := some trimmedTitle }
    | .networkError =>
      { state := st, result := none, requestedTitle := some trimmedTitle }

/-- `deleteConversation(conversationId)` of AdminChatContext (lines 359-397). -/
def deleteConversation (st : ChatState) (conversationId : Int)
    (response : FetchResult Unit) : ChatState :=
  match response with
  | .ok _ =>
    let updated := st.conversations.filter (fun c => c.id != conversationId)
    let st1 :=
      if st.selectedConversationId = some conversationId then
        match updated with
        | c :: _ =>
          { st with conversations := updated,
                    selectedConversationId := some c.id }
        | [] =>
          { st with conversations := updated,
                    selectedConversationId := none,
                    showChatPanel := false }
      else { st with conversations := updated }
    if st.selectedConversationId = some conversationId then
      { st1 with messages := [] }
    else st1
  | .httpError _ => st
  | .networkError => st

/-- The effect of AdminChatContext lines 119-126: when the selected
conversation changes, load its messages (or clear the list when the
selection is cleared).  `loadResults cid` is the fetch oracle for
conversation `cid`. -/
def selectionEffect (st : ChatState)
    (loadResults : Int → Nat → FetchResult (List Message)) : ChatState :=
  match st.selectedConversationId with
  | some cid => (loadMessages st (loadResults cid) 3 300).1
  | none => { st with messages := [] }

/-- `SUPPORTED_FILE_TYPES` of ChatPanel (lines 14-24). -/
def SUPPORTED_FILE_TYPES : List String :=
  ["application/pdf",
   "application/vnd.openxmlformats-officedocument.wordprocessingml.document",
   "application/msword",
   "text/plain",
   "text/markdown",
   "image/jpeg",
   "image/png",
   "image/gif",
   "image/webp"]

/-- `MAX_FILE_SIZE` of ChatPanel: 10 MB. -/
def MAX_FILE_SIZE : Nat := 10 * 1024 * 1024

/-- The `isValidType` test inside `handleFileSelect` (ChatPanel lines 300-306). -/
def isValidType (file : FileMeta) : Bool :=
  SUPPORTED_FILE_TYPES.contains file.type ||
  file.name.endsWith ".docx" ||
  file.name.endsWith ".doc" ||
  file.name.endsWith ".txt" ||
  file.name.endsWith ".md"

/-- The error string pushed for an unsupported file type (ChatPanel line 309). -/
def unsupportedTypeError (file : FileMeta) : String :=
  file.name ++
    ": Unsupported file type. Supported: PDF, DOCX, DOC, TXT, MD, or images (JPEG, PNG, GIF, WEBP)"

/-- The error string pushed for an oversized file (ChatPanel line 317). -/
def fileTooLargeError (file : FileMeta) : String :=
  file.name ++ ": File too large. Maximum size is 10MB."

/-- The per-file body of the `forEach` in `handleFileSelect`
(ChatPanel lines 299-340), accumulating `newFiles` and `errors`. -/
def handleFileSelectStep (acc : List FileMeta × List String)
    (file : FileMeta) : List FileMeta × List String :=
  if !isValidType file then
    (acc.1, acc.2 ++ [unsupportedTypeError file])
  else if file.size > MAX_FILE_SIZE then
    (acc.1, acc.2 ++ [fileTooLargeError file])
  else (acc.1 ++ [file], acc.2)

/-- `handleFileSelect` of ChatPanel (lines 280-356): validates each selected
file and appends the accepted ones to the upload list.  Returns the new
`uploadedFiles` state and the accumulated error messages. -/
def handleFileSelect (uploadedFiles : List FileMeta)
    (files : List FileMeta) : List FileMeta × List String :=
  let r := files.foldl handleFileSelectStep ([], [])
  (uploadedFiles ++ r.1, r.2)

/-- The `typingMessage` state of ChatPanel (lines 77-81). -/
structure TypingMessage where
  id : Int
  fullText : String
  displayedText : String
deriving DecidableEq, Repr

/-- Insertion of one message into a list already sorted by descending id,
with the placement used by a stable sort (ties keep original order). -/
def insertByIdDesc (m : Message) : List Message → List Message
  | [] => [m]
  | x :: xs => if x.id < m.id then m :: x :: xs else x :: insertByIdDesc m xs

/-- Stable sort by descending id, the effect of
`.sort((a, b) => b.id - a.id)` in ChatPanel line 110. -/
def sortByIdDesc : List Message → List Message
  | [] => []
  | x :: xs => insertByIdDesc x (sortByIdDesc xs)

/-- `messages.filter(m => m.author === "agent").sort((a,b) => b.id - a.id)[0]`
(ChatPanel lines 108-110): the agent message with the largest id. -/
def lastAgentMessage (messages : List Message) : Option Message :=
  (sortByIdDesc (messages.filter (fun m => m.author == Author.agent))).head?

/-- Result of one run of the animation-start effect: the new
`typingMessage` state and the new `processedMessageIds` set
(modelled as a list). -/
structure TypingEffectResult where
  typingMessage : Option TypingMessage
  processed : List Int
deriving DecidableEq, Repr

/-- The animation-start effect of ChatPanel (lines 101-137): decides whether
a typing animation is started for the latest agent message.  A new animation
starts only when that message has not been processed yet and no animation is
currently running (the guard at line 115). -/
def typingEffectStep (messages : List Message) (isSending : Bool)
    (prevIsSending : Bool) (processed : List Int)
    (typingMessage : Option TypingMessage) : TypingEffectResult :=
  let sendingCompleted := prevIsSending && !isSending
  if sendingCompleted || !isSending then
    match lastAgentMessage messages with
    | some lam =>
      if !(processed.contains lam.id) && typingMessage.isNone then
        { typingMessage :=
            some { id := lam.id, fullText := lam.text, displayedText := "" },
          processed := lam.id :: processed }
      else { typingMessage := typingMessage, processed := processed }
    | none => { typingMessage := typingMessage, processed := processed }
  else { typingMessage := typingMessage, processed := processed }

/-! Concrete data used to evaluate the operations on specific inputs. -/

/-- A provider state with no data, as right after mounting. -/
def blankState : ChatState :=
  { showChatPanel := false, customerId := none, conversations := [],
    selectedConversationId := none, messages := [], isSending := false,
    isLoadingMessages := false }

/-- A small attached file of a supported type. -/
def examplePdf : FileMeta :=
  { name := "report.pdf", type := "application/pdf", size := 2048 }

/-- A server-confirmed agent reply with id 101 in conversation 5. -/
def serverReply101 : Message :=
  { id := 101, conversation_id := 5, author := .agent, text := "hello back",
    created_at := "2024-01-01T00:00:01Z" }

/-- A message belonging to conversation 1. -/
def conv1StaleMessage : Message :=
  { id := 10, conversation_id := 1, author := .agent, text := "old thread",
    created_at := "2024-01-01T00:00:00Z" }

/-- A message belonging to conversation 2. -/
def conv2FreshMessage : Message :=
  { id := 20, conversation_id := 2, author := .agent, text := "new thread",
    created_at := "2024-01-01T00:00:02Z" }

/-- Unfolding lemma: a successful fetch on attempt `attempt` ends the retry
loop at once with the fetched data, no backoff delay, one attempt. -/
theorem loadMessagesLoop_ok (results : Nat → FetchResult (List Message))
    (delay retries attempt : Nat) (data : List Message)
    (h : attempt < retries) (hr : results attempt = .ok data) :
    loadMessagesLoop results delay retries attempt = (some data, [], 1) := by
  unfold loadMessagesLoop
  simp [h, hr]

/-- Claim C1: a successful send whose response carries a non-empty `messages`
array is claimed to remove the pending placeholder and leave exactly one
entry for the send.  Evaluating `sendMessage` at an attachment-only send
(text trimming to empty, one file) shows the code violates this: the
placeholder is built with text `[Files attached]` but the reconciliation
filter matches `jsTrim text()`, so the id = -1 placeholder survives and the
server messages are appended after it — two entries for one send, the
placeholder leaked. -/
theorem sendMessage_attachment_only_send_leaks_placeholder :
    ((sendMessage blankState 5 " " [examplePdf]
        (.ok { messages := some [serverReply101] })
        (fun _ => .networkError) "t0").1).messages =
      [{ id := -1, conversation_id := 5, author := .admin,
         text := "[Files attached]", created_at := "t0" }, serverReply101] := by
  rfl

/-- Claim C2: a failed send is claimed to restore the message list exactly
(by id set), including for an attachment-only send.  Evaluating `sendMessage`
at an attachment-only send rejected with a 500 shows the code violates this:
the rollback filter matches `jsTrim text()` (empty) while the placeholder text
is `[Files attached]`, so the id = -1 placeholder stays in the list, which
was empty before the call. -/
theorem sendMessage_failed_attachment_only_send_leaves_placeholder :
    ((sendMessage blankState 5 "" [examplePdf] (.httpError 500)
        (fun _ => .networkError) "t0").1).messages =
      [{ id := -1, conversation_id := 5, author := .admin,
         text := "[Files attached]", created_at := "t0" }] := by
  rfl

/-- Claim C3: a late response of a `loadMessages` call for a deselected
conversation is claimed to be discarded.  Evaluating `loadMessages` in a
state where conversation 2 is selected (its fresh data already loaded) with
a late 200 response carrying conversation 1 data shows the code applies the
stale data unconditionally: there is no check of the selected conversation
before `setMessages(data)`, so conversation 1 messages replace the visible
list while conversation 2 stays selected. -/
theorem loadMessages_applies_stale_response :
    ((loadMessages
        { blankState with selectedConversationId := some 2,
                          messages := [conv2FreshMessage] }
        (fun _ => .ok [conv1StaleMessage]) 3 300).1).selectedConversationId
      = some 2 ∧
    ((loadMessages
        { blankState with selectedConversationId := some 2,
                          messages := [conv2FreshMessage] }
        (fun _ => .ok [conv1StaleMessage]) 3 300).1).messages
      = [conv1StaleMessage] ∧
    conv1StaleMessage.conversation_id = 1 := by
  have hloop := loadMessagesLoop_ok (fun _ => .ok [conv1StaleMessage]) 300 3 0
    [conv1StaleMessage] (by omega) rfl
  refine ⟨?_, ?_, rfl⟩ <;> simp [loadMessages, hloop]

/-- Claim C6: `sendMessage` with text trimming to the empty string and no
files is a no-op — no backend request is issued and the state is returned
unchanged (the guard at AdminChatContext line 198). -/
theorem sendMessage_empty_noop (st : ChatState) (conversationId : Int)
    (text : String) (response : FetchResult SendResponse)
    (loadResults : Nat → FetchResult (List Message)) (nowIso : String)
    (h : jsTrim text = "") :
    sendMessage st conversationId text [] response loadResults nowIso
      = (st, false) := by
  simp [sendMessage, h]

/-- Witness for `sendMessage_empty_noop`: whitespace-only text, no files. -/
theorem sendMessage_empty_noop_witness :
    sendMessage blankState 5 "   " [] (.httpError 500)
        (fun _ => .networkError) "t0" = (blankState, false) :=
  sendMessage_empty_noop blankState 5 "   " (.httpError 500)
    (fun _ => .networkError) "t0" rfl

/-- Claim C7: `loadMessages` is idempotent — run twice against the same
backend oracle, the second call reproduces exactly the state of the first
(every successful load replaces the list wholesale with the server data,
and exhaustion resets it to the empty list both times). -/
theorem loadMessages_idempotent (st : ChatState)
    (results : Nat → FetchResult (List Message)) (retries delay : Nat) :
    loadMessages (loadMessages st results retries delay).1 results retries
        delay
      = loadMessages st results retries delay := by
  unfold loadMessages
  cases h : (loadMessagesLoop results delay retries 0).1 <;> simp [h]

/-- Unfolding lemma: a failed fetch on a non-final attempt waits
`delay * 2 ^ attempt` and continues with the next attempt. -/
theorem loadMessagesLoop_fail_mid (results : Nat → FetchResult (List Message))
    (delay retries attempt : Nat) (hmid : attempt < retries - 1)
    (hr : (results attempt).isOk = false) :
    loadMessagesLoop results delay retries attempt =
      ((loadMessagesLoop results delay retries (attempt + 1)).1,
       delay * 2 ^ attempt ::
         (loadMessagesLoop results delay retries (attempt + 1)).2.1,
       (loadMessagesLoop results delay retries (attempt + 1)).2.2 + 1) := by
  have h : attempt < retries := by omega
  rw [loadMessagesLoop.eq_def]
  cases hres : results attempt with
  | ok d => rw [hres] at hr; simp [FetchResult.isOk] at hr
  | httpError s => simp [h, hmid, hres]
  | networkError => simp [h, hmid, hres]

/-- Unfolding lemma: a failed fetch on the final attempt ends the loop with
`setMessages([])`, no further delay, one attempt. -/
theorem loadMessagesLoop_fail_last (results : Nat → FetchResult (List Message))
    (delay retries attempt : Nat) (hlt : attempt < retries)
    (hlast : ¬ attempt < retries - 1) (hr : (results attempt).isOk = false) :
    loadMessagesLoop results delay retries attempt = (some [], [], 1) := by
  rw [loadMessagesLoop.eq_def]
  cases hres : results attempt with
  | ok d => rw [hres] at hr; simp [FetchResult.isOk] at hr
  | httpError s => simp [hlt, hlast, hres]
  | networkError => simp [hlt, hlast, hres]

/-- Claim C4: when the fetch fails on all three attempts, `loadMessages`
performs exactly 3 attempts, waits 300 = 300 * 2 ^ 0 and then
600 = 300 * 2 ^ 1 milliseconds between them, and ends by setting the visible
message list to the empty list.  No exception reaches the caller: the
embedding is a total function (every failure path of the source is caught
inside the loop); the `console.error` diagnostic is a side effect outside
the model. -/
theorem loadMessages_exhaustion (st : ChatState)
    (results : Nat → FetchResult (List Message))
    (hfail : ∀ i, i < 3 → (results i).isOk = false) :
    ((loadMessages st results 3 300).1).messages = [] ∧
    (loadMessages st results 3 300).2 = [300, 600] ∧
    (loadMessagesLoop results 300 3 0).2.2 = 3 := by
  have e2 := loadMessagesLoop_fail_last results 300 3 2 (by omega) (by omega)
    (hfail 2 (by omega))
  have e1 := loadMessagesLoop_fail_mid results 300 3 1 (by omega)
    (hfail 1 (by omega))
  have e0 := loadMessagesLoop_fail_mid results 300 3 0 (by omega)
    (hfail 0 (by omega))
  rw [e2] at e1
  rw [e1] at e0
  norm_num at e0 e1
  refine ⟨?_, ?_, ?_⟩ <;> simp [loadMessages, e0]

/-- Witness for `loadMessages_exhaustion`: a backend answering 500 on every
attempt. -/
theorem loadMessages_exhaustion_witness :
    ((loadMessages blankState (fun _ => .httpError 500) 3 300).1).messages
      = [] ∧
    (loadMessages blankState (fun _ => .httpError 500) 3 300).2
      = [300, 600] ∧
    (loadMessagesLoop (fun _ => .httpError 500) 300 3 0).2.2 = 3 :=
  loadMessages_exhaustion blankState (fun _ => .httpError 500)
    (fun _ _ => rfl)

/-- On a successful DELETE, the local conversation list always becomes the
filtered list, whatever the selection state. -/
theorem deleteConversation_ok_conversations (st : ChatState)
    (conversationId : Int) :
    (deleteConversation st conversationId (.ok ())).conversations
      = st.conversations.filter (fun c => c.id != conversationId) := by
  unfold deleteConversation
  by_cases h : st.selectedConversationId = some conversationId
  · simp only [h, if_true, if_pos]
    cases st.conversations.filter (fun c => c.id != conversationId) <;> simp
  · simp [h]

/-- On a successful DELETE of the selected conversation with at least one
conversation remaining, the state after the handler: filtered list, first
remaining conversation selected, message list cleared. -/
theorem deleteConversation_ok_selected_cons (st : ChatState)
    (conversationId : Int) (c : Conversation) (rest : List Conversation)
    (hsel : st.selectedConversationId = some conversationId)
    (hupd : st.conversations.filter (fun x => x.id != conversationId)
      = c :: rest) :
    deleteConversation st conversationId (.ok ())
      = { st with conversations := c :: rest,
                  selectedConversationId := some c.id,
                  messages := [] } := by
  unfold deleteConversation
  simp [hsel, hupd]

/-- On a successful DELETE of the selected conversation with no conversation
remaining, the state after the handler: empty list, no selection, chat
panel hidden, message list cleared. -/
theorem deleteConversation_ok_selected_nil (st : ChatState)
    (conversationId : Int)
    (hsel : st.selectedConversationId = some conversationId)
    (hupd : st.conversations.filter (fun x => x.id != conversationId) = []) :
    deleteConversation st conversationId (.ok ())
      = { st with conversations := [],
                  selectedConversationId := none,
                  showChatPanel := false,
                  messages := [] } := by
  unfold deleteConversation
  simp [hsel, hupd]

/-- Claim C5: a `deleteConversation` whose backend DELETE succeeds removes
the conversation from the local list for every successful delete, selected
or not (conjuncts 1 and 2: the deleted id is gone, every other conversation
is retained); if the deleted conversation was the selected one and at least
one conversation remains, the first remaining conversation in list order
becomes selected and the message list is cleared before the replacement
messages load (conjunct 3), after which the selection-change effect
repopulates the list with the replacement conversation data (conjunct 5);
if none remains, the selection is cleared to none (conjunct 4). -/
theorem deleteConversation_spec (st : ChatState) (conversationId : Int)
    (loadResults : Int → Nat → FetchResult (List Message)) :
    (∀ c ∈ (deleteConversation st conversationId (.ok ())).conversations,
        c.id ≠ conversationId) ∧
    (∀ c ∈ st.conversations, c.id ≠ conversationId →
        c ∈ (deleteConversation st conversationId (.ok ())).conversations) ∧
    (st.selectedConversationId = some conversationId →
      ∀ c rest,
        st.conversations.filter (fun x => x.id != conversationId)
            = c :: rest →
        (deleteConversation st conversationId
            (.ok ())).selectedConversationId = some c.id ∧
        (deleteConversation st conversationId (.ok ())).messages = []) ∧
    (st.selectedConversationId = some conversationId →
      st.conversations.filter (fun x => x.id != conversationId) = [] →
        (deleteConversation st conversationId
            (.ok ())).selectedConversationId = none) ∧
    (st.selectedConversationId = some conversationId →
      ∀ c rest data,
        st.conversations.filter (fun x => x.id != conversationId)
            = c :: rest →
        loadResults c.id 0 = .ok data →
        (selectionEffect (deleteConversation st conversationId (.ok ()))
            loadResults).messages = data) := by
  refine ⟨?_, ?_, ?_, ?_, ?_⟩
  · intro c hc
    rw [deleteConversation_ok_conversations] at hc
    simp only [List.mem_filter, bne_iff_ne, ne_eq, decide_eq_true_eq] at hc
    exact hc.2
  · intro c hc hne
    rw [deleteConversation_ok_conversations]
    simp only [List.mem_filter, bne_iff_ne, ne_eq, decide_eq_true_eq]
    exact ⟨hc, hne⟩
  · intro hsel c rest hupd
    rw [deleteConversation_ok_selected_cons st conversationId c rest hsel hupd]
    exact ⟨rfl, rfl⟩
  · intro hsel hupd
    rw [deleteConversation_ok_selected_nil st conversationId hsel hupd]
  · intro hsel c rest data hupd hload
    rw [deleteConversation_ok_selected_cons st conversationId c rest hsel hupd]
    have hloop := loadMessagesLoop_ok (loadResults c.id) 300 3 0 data
      (by omega) hload
    simp [selectionEffect, loadMessages, hloop]

/-- Conversation with id 1, as in the spec scenario for deletion. -/
def convOne : Conversation :=
  { id := 1, customer_id := 1, title := "One", external_thread_id := "x1",
    created_at := "c1" }

/-- Conversation with id 2, as in the spec scenario for deletion. -/
def convTwo : Conversation :=
  { id := 2, customer_id := 1, title := "Two", external_thread_id := "x2",
    created_at := "c2" }

/-- State with conversations [1, 2], conversation 1 selected. -/
def twoConvState : ChatState :=
  { showChatPanel := true, customerId := some 1,
    conversations := [convOne, convTwo], selectedConversationId := some 1,
    messages := [conv1StaleMessage], isSending := false,
    isLoadingMessages := false }

/-- A backend serving conversation 2 its fresh message and everything else
an empty list. -/
def perConversationLoad : Int → Nat → FetchResult (List Message) :=
  fun cid _ => if cid == 2 then .ok [conv2FreshMessage] else .ok []

/-- Witness for `deleteConversation_spec`: the spec scenario — list [1, 2],
selected 1, delete 1: conversation 2 becomes selected, the message list is
cleared, and the selection effect then loads conversation 2 data. -/
theorem deleteConversation_spec_witness :
    convTwo.id ≠ 1 ∧
    (deleteConversation twoConvState 1 (.ok ())).selectedConversationId
      = some 2 ∧
    (deleteConversation twoConvState 1 (.ok ())).messages = [] ∧
    (selectionEffect (deleteConversation twoConvState 1 (.ok ()))
        perConversationLoad).messages = [conv2FreshMessage] := by
  have h := deleteConversation_spec twoConvState 1 perConversationLoad
  have hupd : twoConvState.conversations.filter (fun x => x.id != 1)
      = [convTwo] := by decide
  have h1 := h.1 convTwo (by rw [deleteConversation_ok_conversations, hupd]; exact List.mem_singleton.mpr rfl)
  have h3 := h.2.2.1 rfl convTwo [] hupd
  have h5 := h.2.2.2.2 rfl convTwo [] [conv2FreshMessage] hupd (by decide)
  exact ⟨h1, h3.1, h3.2, h5⟩

/-- `loadMessages` only touches the message list and the loading flag:
selection and conversation list pass through unchanged. -/
theorem loadMessages_only_messages (st : ChatState)
    (results : Nat → FetchResult (List Message)) (retries delay : Nat) :
    ((loadMessages st results retries delay).1).selectedConversationId
        = st.selectedConversationId ∧
    ((loadMessages st results retries delay).1).conversations
        = st.conversations := by
  unfold loadMessages
  cases h : (loadMessagesLoop results delay retries 0).1 <;> simp [h]

/-- Claim C9: `createConversation` with no usable title (absent or trimming
to empty) sends the title `Conversation {n+1}` with n the current local
count (conjunct 1); on backend success the new conversation is returned,
becomes the selected one, is prepended to the local list, and its message
list is loaded from the backend (conjunct 2); on backend failure or with no
active customer it returns null and leaves the conversation list and the
selection unchanged (conjunct 3). -/
theorem createConversation_spec (st : ChatState) (title : Option String)
    (response : FetchResult Conversation)
    (loadResults : Nat → FetchResult (List Message))
    (htitle : (title.map jsTrim).getD "" = "") :
    (st.customerId.isSome = true →
        (createConversation st title response loadResults).requestedTitle
          = some ("Conversation "
              ++ toString (st.conversations.length + 1))) ∧
    (∀ conv, st.customerId.isSome = true → response = .ok conv →
        (createConversation st title response loadResults).result
            = some conv ∧
        ((createConversation st title response
            loadResults).state).selectedConversationId = some conv.id ∧
        ((createConversation st title response
            loadResults).state).conversations = conv :: st.conversations ∧
        (∀ data, loadResults 0 = .ok data →
            ((createConversation st title response
                loadResults).state).messages = data)) ∧
    ((st.customerId = none ∨ response.isOk = false) →
        (createConversation st title response loadResults).result = none ∧
        ((createConversation st title response
            loadResults).state).conversations = st.conversations ∧
        ((createConversation st title response
            loadResults).state).selectedConversationId
          = st.selectedConversationId) := by
  have htitle2 : ∀ t, title = some t → jsTrim t = "" := by
    intro t ht
    rw [ht] at htitle
    simpa using htitle
  cases hc : st.customerId with
  | none =>
    refine ⟨?_, ?_, ?_⟩
    · intro hs
      simp [hc] at hs
    · intro conv hs
      simp [hc] at hs
    · intro _
      simp [createConversation, hc]
  | some cust =>
    refine ⟨?_, ?_, ?_⟩
    · intro _
      cases ht : title with
      | none => cases response <;> simp [createConversation, hc, ht]
      | some t =>
        have h0 := htitle2 t ht
        cases response <;> simp [createConversation, hc, ht, h0]
    · intro conv _ hresp
      subst hresp
      refine ⟨?_, ?_, ?_, ?_⟩
      · simp [createConversation, hc]
      · simp only [createConversation, hc]
        rw [(loadMessages_only_messages _ loadResults 3 300).1]
      · simp only [createConversation, hc]
        rw [(loadMessages_only_messages _ loadResults 3 300).2]
      · intro data hload
        have hloop := loadMessagesLoop_ok loadResults 300 3 0 data
          (by omega) hload
        simp [createConversation, hc, loadMessages, hloop]
    · intro hfail
      rcases hfail with h | h
      · simp [hc] at h
      · cases response with
        | ok conv => simp [FetchResult.isOk] at h
        | httpError s => simp [createConversation, hc]
        | networkError => simp [createConversation, hc]

/-- The conversation returned by the backend in the creation scenario. -/
def convNew : Conversation :=
  { id := 7, customer_id := 1, title := "Conversation 1",
    external_thread_id := "x7", created_at := "c7" }

/-- A provider state with an active customer and no conversations yet. -/
def customerOnlyState : ChatState :=
  { showChatPanel := false, customerId := some 1, conversations := [],
    selectedConversationId := none, messages := [], isSending := false,
    isLoadingMessages := false }

/-- Witness for `createConversation_spec`: no title given, an active
customer, backend success, empty message list served for the new
conversation. -/
theorem createConversation_spec_witness :
    (createConversation customerOnlyState none (.ok convNew)
        (fun _ => .ok [])).requestedTitle
      = some ("Conversation "
          ++ toString (customerOnlyState.conversations.length + 1)) ∧
    (createConversation customerOnlyState none (.ok convNew)
        (fun _ => .ok [])).result = some convNew ∧
    ((createConversation customerOnlyState none (.ok convNew)
        (fun _ => .ok [])).state).selectedConversationId = some 7 ∧
    ((createConversation customerOnlyState none (.ok convNew)
        (fun _ => .ok [])).state).messages = [] := by
  have h := createConversation_spec customerOnlyState none (.ok convNew)
    (fun _ => .ok []) rfl
  have h2 := h.2.1 convNew rfl rfl
  exact ⟨h.1 rfl, h2.1, h2.2.1, h2.2.2.2 [] rfl⟩

/-- The earlier agent reply, id 1, whose animation is in progress. -/
def agentReplyOne : Message :=
  { id := 1, conversation_id := 5, author := .agent, text := "first reply",
    created_at := "t1" }

/-- The newer agent reply, id 2, arriving mid-animation. -/
def agentReplyTwo : Message :=
  { id := 2, conversation_id := 5, author := .agent, text := "second reply",
    created_at := "t2" }

/-- A typing animation for message 1, partway through its text. -/
def typingInProgress : TypingMessage :=
  { id := 1, fullText := "first reply", displayedText := "fir" }

/-- Claim C8 counterexample: the newer agent message (id 2, not yet
processed) arrives while the animation for message 1 is still in progress.
The claim says the in-progress animation is abandoned and message 2
immediately starts its own animation; evaluating the effect shows the guard
at ChatPanel line 115 does the opposite — the state is returned unchanged:
the old animation keeps running, message 2 is not started and not even
marked processed. -/
theorem typingEffect_newer_message_not_started :
    typingEffectStep [agentReplyOne, agentReplyTwo] false false [1]
        (some typingInProgress)
      = { typingMessage := some typingInProgress, processed := [1] } := by
  rfl

/-- Claim C8 (amended): while a typing animation is in progress, the
arrival of any newer agent message leaves the animation-start effect
unchanged — the in-progress animation is not abandoned and the newer
message does not start its own animation; a new animation can start only
from the idle state.  The effect returns only display state
(`typingMessage`, `processed`); the confirmed message list is not part of
its output, so the underlying data is never altered. -/
theorem typingEffect_in_progress_unchanged (messages : List Message)
    (isSending prevIsSending : Bool) (processed : List Int)
    (t : TypingMessage) :
    typingEffectStep messages isSending prevIsSending processed (some t)
      = { typingMessage := some t, processed := processed } := by
  unfold typingEffectStep
  cases h : lastAgentMessage messages <;> simp [h]

/-- A file is kept by `handleFileSelect` exactly when its type passes the
validity test and its size does not exceed `MAX_FILE_SIZE`. -/
def acceptFile (file : FileMeta) : Bool :=
  isValidType file && decide (file.size ≤ MAX_FILE_SIZE)

/-- The error message produced for a rejected file: the type error when the
type is invalid, otherwise the size error. -/
def rejectionError (file : FileMeta) : String :=
  if !isValidType file then unsupportedTypeError file
  else fileTooLargeError file

/-- Characterization of the accumulating fold inside `handleFileSelect`. -/
theorem handleFileSelect_fold (files : List FileMeta) (accF : List FileMeta)
    (accE : List String) :
    files.foldl handleFileSelectStep (accF, accE)
      = (accF ++ files.filter acceptFile,
         accE ++ (files.filter (fun f => !acceptFile f)).map
           rejectionError) := by
  induction files generalizing accF accE with
  | nil => simp
  | cons f fs ih =>
    rw [List.foldl_cons]
    by_cases h1 : isValidType f
    · by_cases h2 : f.size ≤ MAX_FILE_SIZE
      · have hstep : handleFileSelectStep (accF, accE) f = (accF ++ [f], accE) := by
          simp [handleFileSelectStep, h1]
          omega
        rw [hstep, ih]
        simp [acceptFile, h1, h2]
      · have hstep : handleFileSelectStep (accF, accE) f
            = (accF, accE ++ [fileTooLargeError f]) := by
          simp [handleFileSelectStep, h1]
          omega
        rw [hstep, ih]
        simp [acceptFile, rejectionError, h1, h2]
    · have hstep : handleFileSelectStep (accF, accE) f
          = (accF, accE ++ [unsupportedTypeError f]) := by
        simp [handleFileSelectStep, h1]
      rw [hstep, ih]
      simp [acceptFile, rejectionError, h1]

/-- Claim C10: `handleFileSelect` appends to the upload list exactly the
files that pass validation — MIME type in `SUPPORTED_FILE_TYPES` or name
ending in .docx, .doc, .txt or .md (the `isValidType` test), and size at
most 10 MB (`MAX_FILE_SIZE`) — in selection order; every rejected file is
kept out of the list and produces exactly one error message (the type error
when the type is invalid, the size error for an oversized valid type). -/
theorem handleFileSelect_spec (uploadedFiles files : List FileMeta) :
    handleFileSelect uploadedFiles files
      = (uploadedFiles ++ files.filter acceptFile,
         (files.filter (fun f => !acceptFile f)).map rejectionError) := by
  unfold handleFileSelect
  rw [handleFileSelect_fold]
  simp

end TJH
